import Mathlib

/-
Verification development for npc_radiomics/cv_grid_search.py.

The module under study is a single Python file.  Its one function,
plot_performance_vs_hyperparams, repeats a stratified cross-validated grid
search n_fold times, concatenates the per-repetition cv-result tables and
plots two line charts.  The embedding below mirrors the statements of that
function one by one.  Library calls (splitter.split, grid.fit) are oracles
that may fail, modelling whatever the statistical library does; everything
in the module itself (name binding, the loop, pd.concat, reset_index, the
dictionaries of the main guard) is modelled explicitly from the source.

Python name resolution matters here, because the source contains two
references whose binding is in dispute (df_curves on line 23, sns on
line 28).  We model a name lookup as: the function's local bindings first
(an association list, newest first, exactly the assignments executed so
far), then the module's global names (everything the import statements and
the module-level statements bind).  Names whose resolution no claim
questions are visibly bound (parameters or just-assigned locals) and are
evaluated directly.
-/

namespace CvGridSearch

/-- Python exception model: the errors this module can surface.  A
NameError carries the unresolved identifier; libError stands for whatever
exception an underlying sklearn call raises, carried abstractly. -/
inductive PyErr where
  | nameError (name : String)
  | typeError (msg : String)
  | valueError (msg : String)
  | libError (msg : String)
deriving DecidableEq, Repr

/-- A cell of a pandas DataFrame as this module uses them: integers (the
reset index column), rationals (hyperparameter values and scores, modelling
the floats of the source), or strings. -/
inductive Cell where
  | int (n : Int)
  | num (q : ℚ)
  | str (s : String)
deriving DecidableEq, Repr

/-- A pandas DataFrame, restricted to what this module observes: a list of
column names, a row index, and the rows themselves. -/
structure DataFrame where
  columns : List String
  index : List Nat
  rows : List (List Cell)
deriving DecidableEq, Repr

/-- Rows of a list of frames, in list order (pd.concat is row-wise for
axis 0, the default used on line 25). -/
def concatRows : List DataFrame → List (List Cell)
  | [] => []
  | d :: ds => d.rows ++ concatRows ds

/-- Indices of a list of frames, in list order. -/
def concatIndex : List DataFrame → List Nat
  | [] => []
  | d :: ds => d.index ++ concatIndex ds

/-- Model of pd.concat(objs) for frames sharing one schema (the case of
line 25, where every frame comes from the same grid.cv_results_ layout):
rows and indices are concatenated in list order, columns are taken from
the first frame, and no deduplication or schema check happens.  On an
empty list pandas raises ValueError, which the model reproduces. -/
def pdConcat : List DataFrame → Except PyErr DataFrame
  | [] => Except.error (PyErr.valueError "No objects to concatenate")
  | d :: ds => Except.ok
      { columns := d.columns
        index := concatIndex (d :: ds)
        rows := concatRows (d :: ds) }

/-- Model of DataFrame.reset_index() with the default drop=False (line 26):
the old index becomes a fresh first column named index, and the row index
becomes 0, 1, 2, .... -/
def DataFrame.reset_index (df : DataFrame) : DataFrame :=
  { columns := "index" :: df.columns
    index := List.range df.rows.length
    rows := (df.index.zip df.rows).map (fun p => Cell.int (p.1 : Int) :: p.2) }

/-- The aggregator of lines 25 and 26: df_cvres = pd.concat(df_cvres)
followed by df_cvres = df_cvres.reset_index(). -/
def aggregate (dfs : List DataFrame) : Except PyErr DataFrame :=
  match pdConcat dfs with
  | Except.error e => Except.error e
  | Except.ok df => Except.ok df.reset_index

/-- The cells of the column named c, one per row (none when a row is too
short; the empty list when the column does not exist). -/
def DataFrame.column (df : DataFrame) (c : String) : List (Option Cell) :=
  match df.columns.findIdx? (fun s => s == c) with
  | none => []
  | some j => df.rows.map (fun r => r.get? j)

/-- Does this cell hold a number in the closed interval from 0 to 1? -/
def scoreCellInUnit : Option Cell → Bool
  | some (Cell.num q) => decide (0 ≤ q) && decide (q ≤ 1)
  | _ => false

/-- Every cell of column c holds a number in the unit interval. -/
def DataFrame.scoresInUnit (df : DataFrame) (c : String) : Bool :=
  (df.column c).all scoreCellInUnit

/-- Public names bound by the wildcard import from sklearn on line 1
(sklearn's declared star-export list: its submodules plus a few
utilities).  Only the absence of the disputed identifiers matters to the
claims; the list is the library's, reproduced for faithful lookup. -/
def sklearnStarNames : List String :=
  ["calibration", "cluster", "compose", "covariance", "cross_decomposition",
   "datasets", "decomposition", "discriminant_analysis", "dummy", "ensemble",
   "exceptions", "experimental", "externals", "feature_extraction",
   "feature_selection", "gaussian_process", "impute", "inspection",
   "isotonic", "kernel_approximation", "kernel_ridge", "linear_model",
   "manifold", "metrics", "mixture", "model_selection", "multiclass",
   "multioutput", "naive_bayes", "neighbors", "neural_network", "pipeline",
   "preprocessing", "random_projection", "semi_supervised", "svm", "tree",
   "clone", "config_context", "get_config", "set_config", "show_versions"]

/-- Public names bound by the wildcard import from sklearn.model_selection
on line 2 (that package's star-export list: splitters, search utilities and
validation helpers). -/
def sklearnModelSelectionStarNames : List String :=
  ["BaseCrossValidator", "GridSearchCV", "GroupKFold", "GroupShuffleSplit",
   "KFold", "LeaveOneGroupOut", "LeaveOneOut", "LeavePGroupsOut",
   "LeavePOut", "ParameterGrid", "ParameterSampler", "PredefinedSplit",
   "RandomizedSearchCV", "RepeatedKFold", "RepeatedStratifiedKFold",
   "ShuffleSplit", "StratifiedKFold", "StratifiedShuffleSplit",
   "TimeSeriesSplit", "check_cv", "cross_val_predict", "cross_val_score",
   "cross_validate", "learning_curve", "permutation_test_score",
   "train_test_split", "validation_curve"]

/-- Python builtin names this module touches (resolution falls back to
builtins after module globals). -/
def pythonBuiltinNames : List String :=
  ["range", "print", "len"]

/-- Every name visible as a global inside the function body: the bindings
of the six import statements (lines 1 to 6), the function itself, and the
two module-level assignments of the main guard (lines 40 and 46). -/
def globalNames : List String :=
  sklearnStarNames ++ sklearnModelSelectionStarNames ++
  ["np", "plt", "MNTSLogger", "pd"] ++
  ["plot_performance_vs_hyperparams", "clf", "param_grid_dict"] ++
  pythonBuiltinNames

/-- Run-time values the embedding distinguishes.  Objects whose identity
never matters to a claim (the estimator, the fitted grid, figure handles,
the logger, the abstract arguments) collapse to tagged constructors. -/
inductive PyVal where
  | none
  | int (n : Int)
  | table (t : DataFrame)
  | listOfTables (ts : List DataFrame)
  | splitterObj
  | splitObj
  | gridObj
  | figObj
  | axesObj
  | loggerObj
  | plainObj
deriving DecidableEq, Repr

/-- The function's local bindings, newest first. -/
abbrev Locals := List (String × PyVal)

/-- Python name resolution as seen from inside the function: locals,
then module globals (and builtins, folded into globalNames); an unbound
name raises NameError. -/
def lookupName (locals : Locals) (x : String) : Except PyErr PyVal :=
  match locals.lookup x with
  | some v => Except.ok v
  | Option.none =>
      if x ∈ globalNames then Except.ok PyVal.plainObj
      else Except.error (PyErr.nameError x)

/-- Oracles standing for the underlying library calls of repetition i:
splitter.split(...) on line 18 (its randomized generator object, or the
exception stratification raises), grid.fit(...) on line 21 (success or the
exception the estimator raises), and the table pd.DataFrame(grid.cv_results_)
built on line 22 after a successful fit. -/
structure Oracles where
  split : Nat → Except PyErr Unit
  fit : Nat → Except PyErr Unit
  cv_results : Nat → DataFrame

/-- One pass through the loop of lines 17 to 23, as written in the source:
bind i; split = splitter.split(...); grid = GridSearchCV(...);
X = grid.fit(...); cvres = pd.DataFrame(grid.cv_results_); then
df_curves.append(cvres), whose receiver name is resolved through
lookupName.  df_curves is never assigned anywhere, so the lookup is the
crux; were it bound to a list, append would extend that list in place
(modelled by rebinding). -/
def runSearchLoop (ora : Oracles) : Locals → Nat → Nat → Except PyErr Locals
  | locals, _, 0 => Except.ok locals
  | locals, i, rem + 1 => do
      let locals := ("i", PyVal.int i) :: locals
      let _ ← ora.split i
      let locals := ("split", PyVal.splitObj) :: locals
      let locals := ("grid", PyVal.gridObj) :: locals
      let _ ← ora.fit i
      let locals := ("X", PyVal.gridObj) :: locals
      let cvres := ora.cv_results i
      let locals := ("cvres", PyVal.table cvres) :: locals
      let acc ← lookupName locals "df_curves"
      match acc with
      | PyVal.listOfTables ts =>
          runSearchLoop ora (("df_curves", PyVal.listOfTables (ts ++ [cvres])) :: locals) (i + 1) rem
      | _ => Except.error (PyErr.typeError "object has no attribute append")

/-- The body of plot_performance_vs_hyperparams exactly as the source has
it (lines 14 to 37): splitter and logger are bound, df_cvres is bound to
the empty list, the repetition loop runs, then pd.concat(df_cvres),
reset_index, plt.subplots, and the two sns.lineplot calls, whose receiver
name sns is resolved through lookupName before any chart could be drawn.
The function has no return statement, hence returns None. -/
def plot_performance_vs_hyperparams (ora : Oracles) (n_split n_fold : Nat) :
    Except PyErr PyVal := do
  let locals : Locals :=
    [("clf", PyVal.plainObj), ("param_grid", PyVal.plainObj),
     ("features", PyVal.plainObj), ("targets", PyVal.plainObj),
     ("n_split", PyVal.int n_split), ("n_fold", PyVal.int n_fold)]
  let locals := ("splitter", PyVal.splitterObj) :: locals
  let locals := ("logger", PyVal.loggerObj) :: locals
  let locals := ("df_cvres", PyVal.listOfTables []) :: locals
  let locals ← runSearchLoop ora locals 0 n_fold
  let v ← lookupName locals "df_cvres"
  let ts ← match v with
    | PyVal.listOfTables ts => Except.ok ts
    | _ => Except.error (PyErr.typeError "cannot concatenate object")
  let cat ← pdConcat ts
  let locals := ("df_cvres", PyVal.table cat) :: locals
  let locals := ("df_cvres", PyVal.table cat.reset_index) :: locals
  let locals := ("ax", PyVal.axesObj) :: ("fig", PyVal.figObj) :: locals
  let _sns1 ← lookupName locals "sns"
  let _sns2 ← lookupName locals "sns"
  pure PyVal.none

/-- One pass through the loop with the accumulator name made consistent:
identical to runSearchLoop except that line 23 reads df_cvres.append(cvres),
the renaming the specification (design note, section 9) identifies as the
intended code and that claim C9 poses as a counterfactual.  Here the
receiver resolves to the list bound on line 16 and append extends it. -/
def runSearchLoopFixed (ora : Oracles) : Locals → Nat → Nat → Except PyErr Locals
  | locals, _, 0 => Except.ok locals
  | locals, i, rem + 1 => do
      let locals := ("i", PyVal.int i) :: locals
      let _ ← ora.split i
      let locals := ("split", PyVal.splitObj) :: locals
      let locals := ("grid", PyVal.gridObj) :: locals
      let _ ← ora.fit i
      let locals := ("X", PyVal.gridObj) :: locals
      let cvres := ora.cv_results i
      let locals := ("cvres", PyVal.table cvres) :: locals
      let acc ← lookupName locals "df_cvres"
      match acc with
      | PyVal.listOfTables ts =>
          runSearchLoopFixed ora (("df_cvres", PyVal.listOfTables (ts ++ [cvres])) :: locals) (i + 1) rem
      | _ => Except.error (PyErr.typeError "object has no attribute append")

/-- Counterfactual body for claim C9: plot_performance_vs_hyperparams with
the single textual change of line 23 appending to df_cvres instead of the
unbound df_curves; every other statement, including both sns.lineplot
receiver lookups, is as in the source. -/
def plot_performance_vs_hyperparams_fixed_names (ora : Oracles) (n_split n_fold : Nat) :
    Except PyErr PyVal := do
  let locals : Locals :=
    [("clf", PyVal.plainObj), ("param_grid", PyVal.plainObj),
     ("features", PyVal.plainObj), ("targets", PyVal.plainObj),
     ("n_split", PyVal.int n_split), ("n_fold", PyVal.int n_fold)]
  let locals := ("splitter", PyVal.splitterObj) :: locals
  let locals := ("logger", PyVal.loggerObj) :: locals
  let locals := ("df_cvres", PyVal.listOfTables []) :: locals
  let locals ← runSearchLoopFixed ora locals 0 n_fold
  let v ← lookupName locals "df_cvres"
  let ts ← match v with
    | PyVal.listOfTables ts => Except.ok ts
    | _ => Except.error (PyErr.typeError "cannot concatenate object")
  let cat ← pdConcat ts
  let locals := ("df_cvres", PyVal.table cat) :: locals
  let locals := ("df_cvres", PyVal.table cat.reset_index) :: locals
  let locals := ("ax", PyVal.axesObj) :: ("fig", PyVal.figObj) :: locals
  let _sns1 ← lookupName locals "sns"
  let _sns2 ← lookupName locals "sns"
  pure PyVal.none

/-- A candidate value inside a hyperparameter grid: an estimator instance
(line 48) or a numeric hyperparameter value (lines 49 and 50). -/
inductive GridCell where
  | estimator (desc : String)
  | num (q : ℚ)
deriving DecidableEq, Repr

/-- A parameter-name-to-candidate-list mapping, the shape GridSearchCV
expects for param_grid. -/
abbrev InnerGrid := List (String × List GridCell)

/-- The inner dictionary of lines 47 to 51: the Elastic Net grid mapping
each pipeline parameter name to its candidate list. -/
def elasticNetGrid : InnerGrid :=
  [("classification", [GridCell.estimator "ElasticNet(tol=1E-4, max_iter=5500)"]),
   ("classification__alpha",
    [GridCell.num (2 / 100 : ℚ), GridCell.num (4 / 100 : ℚ), GridCell.num (6 / 100 : ℚ),
     GridCell.num (8 / 100 : ℚ), GridCell.num (1 / 10 : ℚ)]),
   ("classification__l1_ratio",
    [GridCell.num (0 : ℚ), GridCell.num (2 / 10 : ℚ), GridCell.num (4 / 10 : ℚ),
     GridCell.num (6 / 10 : ℚ), GridCell.num (8 / 10 : ℚ), GridCell.num (1 : ℚ)])]

/-- A value of the outer dictionary: either a candidate list (what a
param_grid entry must be) or a nested dictionary (what the outer dict of
line 46 actually holds). -/
inductive PgValue where
  | candidates (cs : List GridCell)
  | nested (g : InnerGrid)
deriving DecidableEq, Repr

/-- True exactly on candidate lists. -/
def PgValue.isCandidates : PgValue → Bool
  | PgValue.candidates _ => true
  | PgValue.nested _ => false

/-- The dictionary built on lines 46 to 52: a single entry keyed by the
display name Elastic Net whose value is the nested grid. -/
def param_grid_dict : List (String × PgValue) :=
  [("Elastic Net", PgValue.nested elasticNetGrid)]

/-- The param_grid argument of the call on line 53: the main guard passes
param_grid_dict itself, not the nested Elastic Net grid. -/
def main_call_param_grid : List (String × PgValue) := param_grid_dict

/-- Number of hyperparameter combinations an exhaustive grid search
enumerates from a parameter-name-to-candidates mapping: the product of the
candidate-list lengths. -/
def InnerGrid.numCombinations (g : InnerGrid) : Nat :=
  (g.map (fun e => e.2.length)).prod

/-- Number of combinations grid search would enumerate from an outer-shape
dictionary: defined only when every value is a candidate list. -/
def numCombinationsOfArg (pg : List (String × PgValue)) : Option Nat :=
  pg.foldr
    (fun e acc =>
      match e.2, acc with
      | PgValue.candidates cs, some n => some (cs.length * n)
      | _, _ => none)
    (some 1)

/-- Contribution of one ranked pair to the Mann-Whitney statistic: 1 when
the positive sample is ranked above the negative one, one half on a tie,
0 otherwise. -/
def pairScore (p n : ℚ) : ℚ :=
  if n < p then 1 else if p = n then 1 / 2 else 0

/-- Area under the ROC curve of a finite validation fold, as the scoring
string roc_auc of line 20 denotes it: each element pairs a decision score
with the true binary label, and the area is the normalized Mann-Whitney
statistic over all positive-negative pairs. -/
def rocAuc (preds : List (ℚ × Bool)) : ℚ :=
  let pos := (preds.filter (fun x => x.2)).map Prod.fst
  let neg := (preds.filter (fun x => !x.2)).map Prod.fst
  ((pos.map (fun p => (neg.map (fun n => pairScore p n)).sum)).sum) /
    ((pos.length : ℚ) * (neg.length : ℚ))

/-- Arithmetic mean of a list of rationals. -/
def meanQ (l : List ℚ) : ℚ := l.sum / (l.length : ℚ)

/-- One hyperparameter combination of one repetition: the two
hyperparameter values and, per cross-validation fold, the scored
validation samples of that fold. -/
structure ComboResult where
  alpha : ℚ
  l1_ratio : ℚ
  foldPreds : List (List (ℚ × Bool))
deriving DecidableEq, Repr

/-- The columns of grid.cv_results_ this module reads (lines 28 to 37). -/
def cvResultColumns : List String :=
  ["param_classification__alpha", "param_classification__l1_ratio",
   "mean_test_score"]

/-- The table pd.DataFrame(grid.cv_results_) of line 22, restricted to the
columns the module reads: one row per hyperparameter combination, whose
mean_test_score is the mean over folds of the per-fold area under the ROC
curve, per scoring being roc_auc on line 20. -/
def cv_results_table (combos : List ComboResult) : DataFrame :=
  { columns := cvResultColumns
    index := List.range combos.length
    rows := combos.map (fun c =>
      [Cell.num c.alpha, Cell.num c.l1_ratio,
       Cell.num (meanQ (c.foldPreds.map rocAuc))]) }

/-- A one-combination cv-result table used to instantiate oracles on
concrete runs. -/
def smallTable : DataFrame :=
  cv_results_table [⟨(2 / 100 : ℚ), (0 : ℚ), [[(1, true), (0, false)]]⟩]

/-- Oracles of a run in which every underlying library call succeeds. -/
def okOracle : Oracles :=
  { split := fun _ => Except.ok ()
    fit := fun _ => Except.ok ()
    cv_results := fun _ => smallTable }

/-- The four hyperparameter combinations of the end-to-end scenario grid
(alpha in 0.02 and 0.1, l1_ratio in 0.0 and 1.0; decimal literals written
as explicit fractions), each with one scored validation fold. -/
def scenarioCombos : List ComboResult :=
  [⟨(2 / 100 : ℚ), (0 : ℚ), [[(1, true), (0, false)]]⟩,
   ⟨(2 / 100 : ℚ), (1 : ℚ), [[(1, true), (0, false)]]⟩,
   ⟨(1 / 10 : ℚ), (0 : ℚ), [[(1, true), (0, false)]]⟩,
   ⟨(1 / 10 : ℚ), (1 : ℚ), [[(1, true), (0, false)]]⟩]

/-- Oracles of the end-to-end scenario: library calls succeed and each
repetition's grid search reports the four-combination table. -/
def scenarioOracle : Oracles :=
  { split := fun _ => Except.ok ()
    fit := fun _ => Except.ok ()
    cv_results := fun _ => cv_results_table scenarioCombos }

/-- Oracles of a run in which the stratified splitter itself raises (the
degenerate-class case the underlying library rejects). -/
def failSplitOracle : Oracles :=
  { split := fun _ => Except.error
      (PyErr.libError "n_splits cannot be greater than the number of members in each class")
    fit := fun _ => Except.ok ()
    cv_results := fun _ => smallTable }

/-- Two identical single-row frames: concrete input for the aggregator,
whose duplicate rows also exhibit the absence of deduplication. -/
def w4dfs : List DataFrame :=
  [{ columns := ["mean_test_score"], index := [0], rows := [[Cell.num 1]] },
   { columns := ["mean_test_score"], index := [0], rows := [[Cell.num 1]] }]

/-- The aggregate of w4dfs, written out. -/
def w4out : DataFrame :=
  { columns := ["index", "mean_test_score"]
    index := [0, 1]
    rows := [[Cell.int 0, Cell.num 1], [Cell.int 0, Cell.num 1]] }

/-- A single repetition with a single combination and one perfectly ranked
fold: concrete input for the score-range theorem. -/
def w6combos : List ComboResult :=
  [⟨(2 / 100 : ℚ), (0 : ℚ), [[(1, true), (0, false)]]⟩]

/-- The aggregated table of the single-repetition run on w6combos. -/
def w6out : DataFrame :=
  DataFrame.reset_index
    { columns := (cv_results_table w6combos).columns
      index := concatIndex [cv_results_table w6combos]
      rows := concatRows [cv_results_table w6combos] }

/-- Evaluating the body as written always reaches the NameError for
df_curves in the first loop pass, provided the first repetition's library
calls themselves return: the loop body ends in an append whose receiver
name resolves to nothing. -/
theorem eval_hits_df_curves (ora : Oracles) (n_split n_fold : Nat)
    (hn : 1 ≤ n_fold) (hs : ora.split 0 = Except.ok ())
    (hf : ora.fit 0 = Except.ok ()) :
    plot_performance_vs_hyperparams ora n_split n_fold =
      Except.error (PyErr.nameError "df_curves") := by
  obtain ⟨m, rfl⟩ : ∃ m, n_fold = m + 1 := ⟨n_fold - 1, by omega⟩
  simp [plot_performance_vs_hyperparams, runSearchLoop, hs, hf, lookupName,
    List.lookup, globalNames, sklearnStarNames, sklearnModelSelectionStarNames,
    pythonBuiltinNames, Bind.bind, Except.bind]

/-- Invariant of the name-consistent loop: when all library calls of the
remaining repetitions succeed, the loop returns, the accumulator has
grown by exactly one table per repetition in order, and the binding of
sns (never assigned by the loop) is untouched. -/
theorem runSearchLoopFixed_spec (ora : Oracles) (rem : Nat) :
    ∀ (i : Nat) (locals : Locals) (acc : List DataFrame),
    (∀ j, j < rem → ora.split (i + j) = Except.ok () ∧ ora.fit (i + j) = Except.ok ()) →
    locals.lookup "df_cvres" = some (PyVal.listOfTables acc) →
    ∃ locals2 : Locals, ∃ ts : List DataFrame,
      runSearchLoopFixed ora locals i rem = Except.ok locals2 ∧
      locals2.lookup "df_cvres" = some (PyVal.listOfTables (acc ++ ts)) ∧
      ts.length = rem ∧
      locals2.lookup "sns" = locals.lookup "sns" := by
  induction rem with
  | zero =>
      intro i locals acc _ hacc
      exact ⟨locals, [], rfl, by simpa using hacc, rfl, rfl⟩
  | succ rem ih =>
      intro i locals acc hora hacc
      have hsplit : ora.split i = Except.ok () := by
        have := (hora 0 (by omega)).1; simpa using this
      have hfit : ora.fit i = Except.ok () := by
        have := (hora 0 (by omega)).2; simpa using this
      have hora2 : ∀ j, j < rem →
          ora.split ((i + 1) + j) = Except.ok () ∧ ora.fit ((i + 1) + j) = Except.ok () := by
        intro j hj
        have := hora (j + 1) (by omega)
        constructor
        · have h1 := this.1; rw [show i + (j + 1) = i + 1 + j by omega] at h1; exact h1
        · have h2 := this.2; rw [show i + (j + 1) = i + 1 + j by omega] at h2; exact h2
      obtain ⟨locals2, ts, heq, hlook, hlen, hsns⟩ :=
        ih (i + 1)
          (("df_cvres", PyVal.listOfTables (acc ++ [ora.cv_results i])) ::
            ("cvres", PyVal.table (ora.cv_results i)) :: ("X", PyVal.gridObj) ::
            ("grid", PyVal.gridObj) :: ("split", PyVal.splitObj) ::
            ("i", PyVal.int i) :: locals)
          (acc ++ [ora.cv_results i]) hora2 (by simp [List.lookup])
      refine ⟨locals2, [ora.cv_results i] ++ ts, ?_, ?_, by simp [hlen], ?_⟩
      · rw [runSearchLoopFixed]
        simp [hsplit, hfit, lookupName, List.lookup, hacc]
        exact heq
      · simpa using hlook
      · rw [hsns]; simp [List.lookup]

/-- Under the consistent accumulator name, a run whose library calls all
succeed completes the loop and aggregation and then fails to resolve sns:
the plotting receiver is bound neither locally nor by any import. -/
theorem evalFixed_hits_sns (ora : Oracles) (n_split n_fold : Nat)
    (hn : 1 ≤ n_fold)
    (hs : ∀ i, i < n_fold → ora.split i = Except.ok ())
    (hf : ∀ i, i < n_fold → ora.fit i = Except.ok ()) :
    plot_performance_vs_hyperparams_fixed_names ora n_split n_fold =
      Except.error (PyErr.nameError "sns") := by
  obtain ⟨locals2, ts, heq, hlook, hlen, hsns⟩ :=
    runSearchLoopFixed_spec ora n_fold 0
      [("df_cvres", PyVal.listOfTables []), ("logger", PyVal.loggerObj),
       ("splitter", PyVal.splitterObj), ("clf", PyVal.plainObj),
       ("param_grid", PyVal.plainObj), ("features", PyVal.plainObj),
       ("targets", PyVal.plainObj), ("n_split", PyVal.int n_split),
       ("n_fold", PyVal.int n_fold)] []
      (fun j hj => by
        rw [Nat.zero_add]
        exact ⟨hs j (by omega), hf j (by omega)⟩)
      (by simp [List.lookup])
  obtain ⟨t, ts2, rfl⟩ : ∃ t ts2, ts = t :: ts2 := by
    cases ts with
    | nil => simp at hlen; omega
    | cons t ts2 => exact ⟨t, ts2, rfl⟩
  have hsns2 : locals2.lookup "sns" = none := by
    rw [hsns]; simp [List.lookup]
  simp [plot_performance_vs_hyperparams_fixed_names, Bind.bind, Except.bind,
    heq, lookupName, hlook, hsns2, pdConcat, List.lookup, globalNames,
    sklearnStarNames, sklearnModelSelectionStarNames, pythonBuiltinNames]

/-- Sequencing in the body wraps no call in any handler, so an error from
either of the first repetition's library calls is the run's result. -/
theorem library_errors_propagate_helper (ora : Oracles) (n_split n_fold : Nat)
    (e : PyErr) (hn : 1 ≤ n_fold) :
    (ora.split 0 = Except.error e →
      plot_performance_vs_hyperparams ora n_split n_fold = Except.error e) ∧
    (ora.split 0 = Except.ok () → ora.fit 0 = Except.error e →
      plot_performance_vs_hyperparams ora n_split n_fold = Except.error e) := by
  obtain ⟨m, rfl⟩ : ∃ m, n_fold = m + 1 := ⟨n_fold - 1, by omega⟩
  constructor
  · intro h
    simp [plot_performance_vs_hyperparams, runSearchLoop, h, Bind.bind, Except.bind]
  · intro h1 h2
    simp [plot_performance_vs_hyperparams, runSearchLoop, h1, h2, Bind.bind, Except.bind]

/-- Sum of a list bounded above elementwise is bounded by length times the
bound. -/
theorem list_sum_le_length_mul (l : List ℚ) (B : ℚ) (h : ∀ x ∈ l, x ≤ B) :
    l.sum ≤ (l.length : ℚ) * B := by
  have := List.sum_le_card_nsmul l B h
  simpa [nsmul_eq_mul] using this

/-- Each ranked pair contributes at least 0. -/
theorem pairScore_nonneg (p n : ℚ) : 0 ≤ pairScore p n := by
  unfold pairScore; split_ifs <;> norm_num

/-- Each ranked pair contributes at most 1. -/
theorem pairScore_le_one (p n : ℚ) : pairScore p n ≤ 1 := by
  unfold pairScore; split_ifs <;> norm_num

/-- The area under the ROC curve of a fold holding at least one positive
and one negative sample lies in the unit interval. -/
theorem rocAuc_mem_unit (preds : List (ℚ × Bool))
    (hp : (preds.filter (fun x => x.2)) ≠ [])
    (hn : (preds.filter (fun x => !x.2)) ≠ []) :
    0 ≤ rocAuc preds ∧ rocAuc preds ≤ 1 := by
  unfold rocAuc
  set pos := (preds.filter (fun x => x.2)).map Prod.fst with hpos
  set neg := (preds.filter (fun x => !x.2)).map Prod.fst with hneg
  have hplen : 0 < pos.length := by
    rw [hpos, List.length_map]; exact List.length_pos.mpr hp
  have hnlen : 0 < neg.length := by
    rw [hneg, List.length_map]; exact List.length_pos.mpr hn
  have hD : (0 : ℚ) < (pos.length : ℚ) * (neg.length : ℚ) := by
    apply mul_pos <;> exact_mod_cast ‹_›
  have hinner_nonneg : ∀ p : ℚ, 0 ≤ ((neg.map (fun n => pairScore p n)).sum) := by
    intro p
    apply List.sum_nonneg
    intro x hx
    obtain ⟨n, _, rfl⟩ := List.mem_map.mp hx
    exact pairScore_nonneg p n
  have hinner_le : ∀ p : ℚ, ((neg.map (fun n => pairScore p n)).sum) ≤ (neg.length : ℚ) := by
    intro p
    have := list_sum_le_length_mul (neg.map (fun n => pairScore p n)) 1 ?_
    · simpa using this
    · intro x hx
      obtain ⟨n, _, rfl⟩ := List.mem_map.mp hx
      exact pairScore_le_one p n
  have hS_nonneg : 0 ≤ ((pos.map (fun p => (neg.map (fun n => pairScore p n)).sum)).sum) := by
    apply List.sum_nonneg
    intro x hx
    obtain ⟨p, _, rfl⟩ := List.mem_map.mp hx
    exact hinner_nonneg p
  have hS_le : ((pos.map (fun p => (neg.map (fun n => pairScore p n)).sum)).sum) ≤
      (pos.length : ℚ) * (neg.length : ℚ) := by
    have h1 := list_sum_le_length_mul
      (pos.map (fun p => (neg.map (fun n => pairScore p n)).sum)) ((neg.length : ℚ)) ?_
    · simpa using h1
    · intro x hx
      obtain ⟨p, _, rfl⟩ := List.mem_map.mp hx
      exact hinner_le p
  constructor
  · exact div_nonneg hS_nonneg (le_of_lt hD)
  · rw [div_le_one hD]; exact hS_le

/-- The mean of a nonempty list of unit-interval rationals lies in the
unit interval. -/
theorem meanQ_mem_unit (l : List ℚ) (hl : l ≠ [])
    (h : ∀ x ∈ l, 0 ≤ x ∧ x ≤ 1) : 0 ≤ meanQ l ∧ meanQ l ≤ 1 := by
  unfold meanQ
  have hlen : (0 : ℚ) < (l.length : ℚ) := by
    exact_mod_cast List.length_pos.mpr hl
  constructor
  · exact div_nonneg (List.sum_nonneg (fun x hx => (h x hx).1)) (le_of_lt hlen)
  · rw [div_le_one hlen]
    have := list_sum_le_length_mul l 1 (fun x hx => (h x hx).2)
    simpa using this

/-- A row of the concatenation is a row of one of the frames. -/
theorem mem_concatRows {r : List Cell} {dfs : List DataFrame} :
    r ∈ concatRows dfs ↔ ∃ d ∈ dfs, r ∈ d.rows := by
  induction dfs with
  | nil => simp [concatRows]
  | cons d ds ih => simp [concatRows, ih]

/-- The concatenated rows are the flattening of the per-frame row lists. -/
theorem concatRows_eq_flatten (dfs : List DataFrame) :
    concatRows dfs = (dfs.map DataFrame.rows).flatten := by
  induction dfs with
  | nil => simp [concatRows]
  | cons d ds ih => simp [concatRows, ih]

/-- The concatenated indices are the flattening of the per-frame index
lists. -/
theorem concatIndex_eq_flatten (dfs : List DataFrame) :
    concatIndex dfs = (dfs.map DataFrame.index).flatten := by
  induction dfs with
  | nil => simp [concatIndex]
  | cons d ds ih => simp [concatIndex, ih]

/-- When every frame indexes each of its rows, the concatenated index and
row lists have the same length. -/
theorem concatIndex_length (dfs : List DataFrame)
    (h : ∀ d ∈ dfs, d.index.length = d.rows.length) :
    (concatIndex dfs).length = (concatRows dfs).length := by
  induction dfs with
  | nil => simp [concatIndex, concatRows]
  | cons d ds ih =>
      simp only [concatIndex, concatRows, List.length_append]
      rw [h d (by simp), ih (fun x hx => h x (by simp [hx]))]

/-- Claim C1: inside the repetition loop the per-repetition cv-result
table is appended to the identifier df_curves, which is never bound,
while the accumulator that is initialized and later concatenated is named
df_cvres; consequently every invocation with n_fold at least 1 (whose
first repetition's library calls return) reaches the unbound-name error
in the first loop pass, before any result is aggregated: the run's result
is that NameError, so the concatenation of line 25 never executes. -/
theorem loop_append_unbound_name_first_iteration (ora : Oracles)
    (n_split n_fold : Nat) (hn : 1 ≤ n_fold)
    (hs : ora.split 0 = Except.ok ()) (hf : ora.fit 0 = Except.ok ()) :
    plot_performance_vs_hyperparams ora n_split n_fold =
      Except.error (PyErr.nameError "df_curves") :=
  eval_hits_df_curves ora n_split n_fold hn hs hf

/-- Witness for claim C1's theorem at the source's default arguments, with
oracles on which every library call succeeds. -/
theorem loop_append_unbound_name_first_iteration_witness :
    plot_performance_vs_hyperparams okOracle 7 15 =
      Except.error (PyErr.nameError "df_curves") :=
  loop_append_unbound_name_first_iteration okOracle 7 15 (by norm_num) rfl rfl

/-- Claim C2: the end-to-end scenario (four-combination grid, two
repetitions, every library call succeeding) does not complete without
raising; the run stops at the NameError for df_curves in the first
repetition, so no eight-row table and no charts are produced. -/
theorem endtoend_scenario_raises :
    plot_performance_vs_hyperparams scenarioOracle 7 2 =
      Except.error (PyErr.nameError "df_curves") :=
  eval_hits_df_curves scenarioOracle 7 2 (by norm_num) rfl rfl

/-- Claim C3: with n_fold equal to 1 the invocation produces no aggregated
table at all; it ends in the NameError for df_curves, so no table with
one row per hyperparameter combination exists. -/
theorem nfold_one_no_table_produced :
    plot_performance_vs_hyperparams okOracle 7 1 =
      Except.error (PyErr.nameError "df_curves") :=
  eval_hits_df_curves okOracle 7 1 (by norm_num) rfl rfl

/-- Claim C4: the aggregator of lines 25 and 26, applied to a nonempty
list of frames sharing one schema, concatenates the per-repetition rows
row-wise in append order with no deduplication (the output rows, minus
the prepended old-index cell, are exactly the flattened input rows in
order), preserves every column (the output columns are the shared columns
behind the new index column), and resets the row index to 0, 1, 2, ...;
no schema validation is performed beyond this. -/
theorem aggregator_concats_in_order_and_resets_index
    (dfs : List DataFrame) (cols : List String) (out : DataFrame)
    (hne : dfs ≠ [])
    (hcols : ∀ d ∈ dfs, d.columns = cols)
    (hlen : ∀ d ∈ dfs, d.index.length = d.rows.length)
    (hagg : aggregate dfs = Except.ok out) :
    out.columns = "index" :: cols ∧
    out.rows.map List.tail = (dfs.map DataFrame.rows).flatten ∧
    out.rows.map List.head? =
      ((dfs.map DataFrame.index).flatten).map (fun i : Nat => some (Cell.int (i : Int))) ∧
    out.index = List.range ((dfs.map DataFrame.rows).flatten).length := by
  obtain ⟨d, ds, rfl⟩ : ∃ d ds, dfs = d :: ds := by
    cases dfs with
    | nil => exact absurd rfl hne
    | cons d ds => exact ⟨d, ds, rfl⟩
  have hIlen : (concatIndex (d :: ds)).length = (concatRows (d :: ds)).length :=
    concatIndex_length _ hlen
  simp only [aggregate, pdConcat, DataFrame.reset_index, Except.ok.injEq] at hagg
  subst hagg
  refine ⟨by simpa using hcols d (by simp), ?_, ?_, ?_⟩
  · rw [List.map_map]
    have : (List.tail ∘ fun p : Nat × List Cell => Cell.int (p.1 : Int) :: p.2) = Prod.snd := by
      funext p; rfl
    rw [this, List.map_snd_zip _ _ (le_of_eq hIlen.symm), concatRows_eq_flatten]
  · rw [List.map_map]
    have : (List.head? ∘ fun p : Nat × List Cell => Cell.int (p.1 : Int) :: p.2) =
        (fun i : Nat => some (Cell.int (i : Int))) ∘ Prod.fst := by
      funext p; rfl
    rw [this, ← List.map_map, List.map_fst_zip _ _ (le_of_eq hIlen), concatIndex_eq_flatten]
  · rw [concatRows_eq_flatten]

/-- Witness for claim C4's theorem on two identical one-row frames. -/
theorem aggregator_concats_in_order_and_resets_index_witness :
    w4out.columns = "index" :: ["mean_test_score"] ∧
    w4out.rows.map List.tail = (w4dfs.map DataFrame.rows).flatten ∧
    w4out.rows.map List.head? =
      ((w4dfs.map DataFrame.index).flatten).map (fun i : Nat => some (Cell.int (i : Int))) ∧
    w4out.index = List.range ((w4dfs.map DataFrame.rows).flatten).length :=
  aggregator_concats_in_order_and_resets_index w4dfs ["mean_test_score"] w4out
    (by decide) (by decide) (by decide) (by rfl)

/-- Claim C5: with two repetitions requested, the run ends in the first
repetition's NameError, so the second repetition never constructs a split
and no result table is ever appended; the claimed per-repetition fresh
splits and append ordering never happen past repetition one. -/
theorem second_repetition_never_reached :
    plot_performance_vs_hyperparams okOracle 7 2 =
      Except.error (PyErr.nameError "df_curves") :=
  eval_hits_df_curves okOracle 7 2 (by norm_num) rfl rfl

/-- Claim C6: every value in the mean test score column of an aggregated
result table lies in the closed unit interval, because each entry is the
mean over folds of an area under the ROC curve: for any repetitions whose
folds each hold at least one positive and one negative sample, the
aggregate of their cv-result tables has all mean_test_score cells in
the interval from 0 to 1. -/
theorem mean_test_scores_in_unit_interval
    (reps : List (List ComboResult)) (out : DataFrame)
    (hne : reps ≠ [])
    (hfolds : ∀ combos ∈ reps, ∀ c ∈ combos, c.foldPreds ≠ [] ∧
      ∀ f ∈ c.foldPreds,
        (f.filter (fun x => x.2)) ≠ [] ∧ (f.filter (fun x => !x.2)) ≠ [])
    (hagg : aggregate (reps.map cv_results_table) = Except.ok out) :
    out.scoresInUnit "mean_test_score" = true := by
  obtain ⟨r0, rs, rfl⟩ : ∃ r0 rs, reps = r0 :: rs := by
    cases reps with
    | nil => exact absurd rfl hne
    | cons r0 rs => exact ⟨r0, rs, rfl⟩
  simp only [List.map_cons, aggregate, pdConcat, Except.ok.injEq] at hagg
  subst hagg
  rw [DataFrame.scoresInUnit, List.all_eq_true]
  intro v hv
  rw [DataFrame.column] at hv
  have hidx : ((DataFrame.reset_index
      { columns := (cv_results_table r0).columns,
        index := concatIndex (cv_results_table r0 :: List.map cv_results_table rs),
        rows := concatRows (cv_results_table r0 :: List.map cv_results_table rs) }).columns.findIdx?
      (fun s => s == "mean_test_score")) = some 3 := rfl
  rw [hidx] at hv
  simp only [DataFrame.reset_index, List.map_map, List.mem_map] at hv
  obtain ⟨p, hp, rfl⟩ := hv
  obtain ⟨i, r⟩ := p
  have hr : r ∈ concatRows (cv_results_table r0 :: List.map cv_results_table rs) :=
    (List.of_mem_zip hp).2
  rw [mem_concatRows] at hr
  obtain ⟨dft, hdft, hrd⟩ := hr
  rw [← List.map_cons] at hdft
  obtain ⟨combos, hcombos, rfl⟩ := List.mem_map.mp hdft
  rw [cv_results_table] at hrd
  simp only [List.mem_map] at hrd
  obtain ⟨c, hc, rfl⟩ := hrd
  have hb := hfolds combos hcombos c hc
  have hm : 0 ≤ meanQ (c.foldPreds.map rocAuc) ∧ meanQ (c.foldPreds.map rocAuc) ≤ 1 := by
    apply meanQ_mem_unit
    · simpa using hb.1
    · intro x hx
      obtain ⟨f, hf, rfl⟩ := List.mem_map.mp hx
      exact rocAuc_mem_unit f (hb.2 f hf).1 (hb.2 f hf).2
  simp [scoreCellInUnit, hm.1, hm.2]

/-- Witness for claim C6's theorem on a single repetition with one
combination and one perfectly ranked fold. -/
theorem mean_test_scores_in_unit_interval_witness :
    w6out.scoresInUnit "mean_test_score" = true :=
  mean_test_scores_in_unit_interval [w6combos] w6out (by decide) (by decide) (by rfl)

/-- Claim C7: the function catches and translates no exceptions; when an
underlying library call of the first repetition raises, the very same
exception value is the outcome of the single invocation (and evaluation
terminates there, with no retry). -/
theorem library_errors_propagate_unmodified (ora : Oracles)
    (n_split n_fold : Nat) (e : PyErr) (hn : 1 ≤ n_fold) :
    (ora.split 0 = Except.error e →
      plot_performance_vs_hyperparams ora n_split n_fold = Except.error e) ∧
    (ora.split 0 = Except.ok () → ora.fit 0 = Except.error e →
      plot_performance_vs_hyperparams ora n_split n_fold = Except.error e) :=
  library_errors_propagate_helper ora n_split n_fold e hn

/-- Witness for claim C7's theorem: a run whose splitter raises the
degenerate-stratification error surfaces exactly that error. -/
theorem library_errors_propagate_unmodified_witness :
    plot_performance_vs_hyperparams failSplitOracle 7 15 =
      Except.error
        (PyErr.libError "n_splits cannot be greater than the number of members in each class") :=
  (library_errors_propagate_unmodified failSplitOracle 7 15 _ (by norm_num)).1 rfl

/-- Claim C8: no invocation renders the two line charts; the body as
written dies at the df_curves NameError before the plotting lines, and
even with the accumulator naming made consistent the plotting receiver
sns is unbound, so evaluation still errors before any chart is drawn. -/
theorem no_charts_rendered :
    plot_performance_vs_hyperparams okOracle 7 4 =
      Except.error (PyErr.nameError "df_curves") ∧
    plot_performance_vs_hyperparams_fixed_names okOracle 7 4 =
      Except.error (PyErr.nameError "sns") :=
  ⟨eval_hits_df_curves okOracle 7 4 (by norm_num) rfl rfl,
   evalFixed_hits_sns okOracle 7 4 (by norm_num) (fun _ _ => rfl) (fun _ _ => rfl)⟩

/-- Claim C9: the identifier sns is bound by none of the module's imports,
and even with the aggregation accumulator naming made consistent, every
invocation that reaches the plotting stage (all repetitions' library calls
succeeding) hits the unbound-name error for sns, so the two line charts
are never produced. -/
theorem sns_unbound_plotting_raises (ora : Oracles) (n_split n_fold : Nat)
    (hn : 1 ≤ n_fold)
    (hs : ∀ i, i < n_fold → ora.split i = Except.ok ())
    (hf : ∀ i, i < n_fold → ora.fit i = Except.ok ()) :
    "sns" ∉ globalNames ∧
    plot_performance_vs_hyperparams_fixed_names ora n_split n_fold =
      Except.error (PyErr.nameError "sns") :=
  ⟨by decide, evalFixed_hits_sns ora n_split n_fold hn hs hf⟩

/-- Witness for claim C9's theorem at the source's default arguments. -/
theorem sns_unbound_plotting_raises_witness :
    "sns" ∉ globalNames ∧
    plot_performance_vs_hyperparams_fixed_names okOracle 7 15 =
      Except.error (PyErr.nameError "sns") :=
  sns_unbound_plotting_raises okOracle 7 15 (by norm_num) (fun _ _ => rfl) (fun _ _ => rfl)

/-- Claim C10: the main guard passes the outer display-name-keyed
dictionary as param_grid, whose single key is Elastic Net and whose single
value is a nested dictionary rather than a candidate list, so the supplied
argument is not a parameter-name-to-candidates mapping and enumerates no
combination count at all, while the inner grid it wraps would enumerate
the 5 times 6 alpha and l1_ratio combinations. -/
theorem main_guard_passes_display_keyed_dict :
    main_call_param_grid = param_grid_dict ∧
    main_call_param_grid.map Prod.fst = ["Elastic Net"] ∧
    (main_call_param_grid.all (fun e => !e.2.isCandidates)) = true ∧
    numCombinationsOfArg main_call_param_grid = none ∧
    InnerGrid.numCombinations elasticNetGrid = 5 * 6 ∧
    numCombinationsOfArg (elasticNetGrid.map (fun e => (e.1, PgValue.candidates e.2))) =
      some (5 * 6) :=
  ⟨rfl, rfl, rfl, rfl, rfl, rfl⟩

end CvGridSearch
